import Mathlib

/-!
Verification development for the screenitshot renderer core: a shallow
embedding of the Format Resolver (`src/js/src/types.ts` / `src/unnamed/part_003`),
the Capture Driver (`src/js/src/renderer.ts`), and two renderer modules —
the markdown pseudo-pagination module (`src/render/md.ts`) and the PDF
native-paged module (`src/render/pdf.ts`) — together with theorems settling
the spec claims about pagination arithmetic, page clamping, capture-strategy
selection, output scaling, completion-channel rejection, browser-resource
cleanup, format resolution, and the URL direct-navigation path.

JavaScript numbers that are integer-valued in the source (element
`scrollHeight`, page numbers, viewport sizes) are modelled as `Int`;
the only fractional quantities (pdf.js viewport dimensions before
`Math.ceil`, the informational `scale` field) are modelled as `ℚ`.
File-system plumbing (output path derivation, actual image bytes) and the
browser process itself are outside the embedding; browser interactions are
recorded as an explicit event trace so that resource lifecycle and
capture-strategy claims are statable.
-/

set_option autoImplicit false

namespace Screenitshot

instance {ε α : Type} [DecidableEq ε] [DecidableEq α] : DecidableEq (Except ε α) :=
  fun x y =>
    match x, y with
    | .ok a, .ok b =>
      if h : a = b then .isTrue (h ▸ rfl) else .isFalse (fun hc => h (Except.ok.inj hc))
    | .error e, .error f =>
      if h : e = f then .isTrue (h ▸ rfl) else .isFalse (fun hc => h (Except.error.inj hc))
    | .ok _, .error _ => .isFalse Except.noConfusion
    | .error _, .ok _ => .isFalse Except.noConfusion

/-- The format tags of `FileFormat` in `src/js/src/types.ts` (17-value union). -/
inductive FileFormat where
  | pdf | epub | docx | xlsx | pptx | md | html | csv | rtf | ipynb
  | tex | code | url | mmd | geojson | gpx | unknown
  deriving DecidableEq, Repr

/-- The image output formats of `ScreenshotOptions.format`. -/
inductive ImageFormat where
  | png | jpeg | webp
  deriving DecidableEq, Repr

/-- `ScreenshotOptions` from `src/js/src/types.ts`: optional output image
format (default png is applied inside `render`), optional explicit viewport
width/height, optional 1-indexed page selector. The `output` path and
`fileName` fields are file-system plumbing outside the embedding. -/
structure ScreenshotOptions where
  format : ImageFormat := .png
  width : Option Int := none
  height : Option Int := none
  page : Option Int := none
  deriving DecidableEq, Repr

/-- `RenderMetadata` as produced by renderer modules and consumed by the
Capture Driver: CSS-pixel content dimensions, page bookkeeping, the
informational `scale` field, and the optional clip origin that the driver
reads dynamically (`(metadata as any).clipX` / `.clipY`); `none` models the
field being `undefined`. -/
structure RenderMetadata where
  width : Int
  height : Int
  pageCount : Int
  pageNumber : Int
  scale : ℚ
  clipX : Option Int := none
  clipY : Option Int := none
  deriving DecidableEq, Repr

/-- The driver's `ScreenshotResult`: final pixel dimensions and the image
format used (the output `path` field is file-system plumbing). -/
structure ScreenshotResult where
  format : ImageFormat
  width : Int
  height : Int
  deriving DecidableEq, Repr

/-- JavaScript `String.prototype.toLowerCase` on one character: ASCII
upper-case letters map to lower case (format identifiers are ASCII; the
full Unicode case map is out of scope). -/
def jsCharToLower (c : Char) : Char :=
  if 'A' ≤ c ∧ c ≤ 'Z' then Char.ofNat (c.toNat + 32) else c

/-- JavaScript `String.prototype.toLowerCase`, character by character. -/
def jsToLowerCase (s : String) : String := ⟨s.data.map jsCharToLower⟩

/-- JavaScript `x || dflt` for an optionally-injected string global:
a missing binding or the empty string (both falsy) fall back to `dflt`. -/
def jsOrString (v : Option String) (dflt : String) : String :=
  match v with
  | some s => if s = "" then dflt else s
  | none => dflt

/-- JavaScript `x || dflt` for an optionally-injected integer global:
a missing binding or `0` (both falsy) fall back to `dflt`. -/
def jsOrInt (v : Option Int) (dflt : Int) : Int :=
  match v with
  | some n => if n = 0 then dflt else n
  | none => dflt

/-- `Math.ceil (a / b)` for integer `a` and positive integer `b`, as used on
integer quantities in the source: the ceiling of the exact rational quotient,
written through floor division (`Int` division is Euclidean division, which
for a positive divisor is floor division) as `-((-a) / b)`. -/
def jsCeilDiv (a b : Int) : Int := -((-a) / b)

/-! ## Markdown module (`src/render/md.ts`) -/

/-- `VIEWPORT_WIDTH` constant of `md.ts`. -/
def VIEWPORT_WIDTH : Int := 960

/-- `VIEWPORT_HEIGHT` constant of `md.ts`. -/
def VIEWPORT_HEIGHT : Int := 1280

/-- The pseudo-pagination quadruple computed inside `renderMarkdown`
(`md.ts` lines 234–244): derived page count, clamped target page, scroll
offset, and the height of the selected page. -/
structure MdPagination where
  pageCount : Int
  targetPage : Int
  scrollY : Int
  pageHeight : Int
  deriving DecidableEq, Repr

/-- The pseudo-pagination computation of `renderMarkdown` over the measured
`totalHeight = container.scrollHeight` and the module-global `pageNumber`:
`pageCount = Math.max(1, Math.ceil(totalHeight / VIEWPORT_HEIGHT))`,
`targetPage = Math.max(1, Math.min(pageNumber, pageCount))`,
`scrollY = (targetPage - 1) * VIEWPORT_HEIGHT`,
`pageHeight = Math.min(VIEWPORT_HEIGHT, totalHeight - scrollY)`. -/
def mdPaginate (totalHeight pageNumber : Int) : MdPagination :=
  let pageCount := max 1 (jsCeilDiv totalHeight VIEWPORT_HEIGHT)
  let targetPage := max 1 (min pageNumber pageCount)
  let scrollY := (targetPage - 1) * VIEWPORT_HEIGHT
  let remainingHeight := totalHeight - scrollY
  let pageHeight := min VIEWPORT_HEIGHT remainingHeight
  ⟨pageCount, targetPage, scrollY, pageHeight⟩

/-- The environment a run of `renderMarkdown` observes: the two injected
globals (`globalThis.fileBase64`, `globalThis.pageNumber`), whether the
`#md-container` element exists, whether `atob`/decoding of the payload
succeeds, and the measured `container.scrollHeight` after marked has
rendered. -/
structure MdEnv where
  injectedFileBase64 : Option String
  injectedPageNumber : Option Int
  containerPresent : Bool
  decodeOk : Bool
  scrollHeight : Int
  deriving DecidableEq, Repr

/-- The placeholder sentinel shared by the modules. -/
def FILE_BASE64_PLACEHOLDER : String := "FILE_BASE64_PLACEHOLDER"

/-- `renderMarkdown` of `md.ts`: the value `window.renderComplete` settles
with — `Except.ok` models the promise resolving with metadata, and
`Except.error` models it rejecting (the module's `catch` block logs and
then re-throws the error). Local-testing mode (payload equal to the
placeholder) resolves immediately with dummy metadata. -/
def renderMarkdown (env : MdEnv) : Except String RenderMetadata :=
  let fileBase64 := jsOrString env.injectedFileBase64 FILE_BASE64_PLACEHOLDER
  let pageNumber := jsOrInt env.injectedPageNumber 1
  if ¬env.containerPresent then
    .error "Markdown container element not found"
  else if fileBase64 = FILE_BASE64_PLACEHOLDER then
    .ok { width := VIEWPORT_WIDTH, height := VIEWPORT_HEIGHT,
          pageCount := 1, pageNumber := 1, scale := 1 }
  else if ¬env.decodeOk then
    .error "InvalidCharacterError: atob failed"
  else
    let pg := mdPaginate env.scrollHeight pageNumber
    .ok { width := VIEWPORT_WIDTH, height := pg.pageHeight,
          pageCount := pg.pageCount, pageNumber := pg.targetPage, scale := 2 }

/-! ## PDF module (`src/render/pdf.ts`) -/

/-- A page of a loaded PDF document, with the fractional dimensions that
`page.getViewport({scale})` reports before the module applies `Math.ceil`. -/
structure PdfPage where
  width : ℚ
  height : ℚ
  deriving DecidableEq, Repr

/-- A loaded PDF document as pdf.js exposes it to the module: the page list
(`numPages = pages.length`, pages addressed 1-indexed by `getPage`). -/
structure PdfDocument where
  pages : List PdfPage
  deriving DecidableEq, Repr

/-- pdf.js `pdf.getPage(n)`: yields page `n` (1-indexed) and rejects with an
invalid-page error when `n` is outside `[1, numPages]` — pdf.js performs no
clamping, and neither does the module around this call. -/
def getPage (pdf : PdfDocument) (n : Int) : Except String PdfPage :=
  if 1 ≤ n then
    match pdf.pages.get? (n - 1).toNat with
    | some p => .ok p
    | none => .error "Invalid page request"
  else .error "Invalid page request"

/-- The environment a run of `renderPDF` observes: the injected globals,
presence of the `#pdf-canvas` element, `atob` success, the outcome of
`pdfjsLib.getDocument(...).promise`, the 2d-context lookup, and the
`page.render(...).promise` outcome. -/
structure PdfEnv where
  injectedFileBase64 : Option String
  injectedPageNumber : Option Int
  canvasPresent : Bool
  decodeOk : Bool
  pdfLoad : Except String PdfDocument
  contextOk : Bool
  renderOk : Bool
  deriving Repr

/-- `renderPDF` of `pdf.ts`: the value `window.renderComplete` settles with.
The requested `pageNumber` is passed to `getPage` unchanged (no clamping),
the reported dimensions are `Math.ceil` of the scale-1.0 viewport, and the
`catch` block logs and re-throws, so any internal failure surfaces as
`Except.error` (a rejected promise). -/
def renderPDF (env : PdfEnv) : Except String RenderMetadata :=
  let fileBase64 := jsOrString env.injectedFileBase64 FILE_BASE64_PLACEHOLDER
  let pageNumber := jsOrInt env.injectedPageNumber 1
  if ¬env.canvasPresent then
    .error "Canvas element not found"
  else if fileBase64 = FILE_BASE64_PLACEHOLDER then
    .ok { width := 1920, height := 1080, pageCount := 1, pageNumber := 1, scale := 1 }
  else if ¬env.decodeOk then
    .error "InvalidCharacterError: atob failed"
  else
    match env.pdfLoad with
    | .error e => .error e
    | .ok pdf =>
      match getPage pdf pageNumber with
      | .error e => .error e
      | .ok page =>
        let scale : ℚ := 1
        let viewportWidth := page.width * scale
        let viewportHeight := page.height * scale
        if ¬env.contextOk then
          .error "Cannot get canvas context"
        else if ¬env.renderOk then
          .error "PDF page render failed"
        else
          .ok { width := ⌈viewportWidth⌉, height := ⌈viewportHeight⌉,
                pageCount := (pdf.pages.length : Int), pageNumber := pageNumber,
                scale := scale }

/-! ## Format Resolver (`src/js/src/types.ts`, `resolveFormat`) -/

/-- `MIME_TO_FORMAT` table, in source order; looked up with the identifier
as given (case-sensitive object-key access). -/
def MIME_TO_FORMAT : List (String × FileFormat) :=
  [("application/pdf", .pdf),
   ("application/epub+zip", .epub),
   ("application/vnd.openxmlformats-officedocument.wordprocessingml.document", .docx),
   ("application/vnd.openxmlformats-officedocument.spreadsheetml.sheet", .xlsx),
   ("application/vnd.openxmlformats-officedocument.presentationml.presentation", .pptx),
   ("text/markdown", .md),
   ("text/html", .html),
   ("text/csv", .csv),
   ("application/rtf", .rtf),
   ("text/rtf", .rtf),
   ("application/x-ipynb+json", .ipynb),
   ("application/x-tex", .tex),
   ("text/x-tex", .tex),
   ("application/geo+json", .geojson),
   ("application/gpx+xml", .gpx)]

/-- `SLUG_TO_FORMAT` table, in source order; looked up with the lowercased
identifier. -/
def SLUG_TO_FORMAT : List (String × FileFormat) :=
  [("pdf", .pdf), ("epub", .epub), ("docx", .docx), ("xlsx", .xlsx),
   ("pptx", .pptx), ("md", .md), ("markdown", .md), ("html", .html),
   ("htm", .html), ("csv", .csv), ("rtf", .rtf), ("ipynb", .ipynb),
   ("jupyter", .ipynb), ("tex", .tex), ("latex", .tex), ("code", .code),
   ("url", .url), ("mmd", .mmd), ("mermaid", .mmd), ("geojson", .geojson),
   ("gpx", .gpx)]

/-- The property names a plain JavaScript object literal inherits from
`Object.prototype`: the `in` operator walks the prototype chain, so these
names test true against `SLUG_TO_FORMAT` and `MIME_TO_FORMAT` even though
they are own keys of neither. -/
def OBJECT_PROTOTYPE_KEYS : List String :=
  ["constructor", "hasOwnProperty", "isPrototypeOf", "propertyIsEnumerable",
   "toLocaleString", "toString", "valueOf", "__proto__", "__defineGetter__",
   "__defineSetter__", "__lookupGetter__", "__lookupSetter__"]

/-- What a property read on one of the format tables yields: an own key
gives a `FileFormat` tag; a name inherited from `Object.prototype` gives a
non-`FileFormat` value (a built-in function, or the prototype object for
`__proto__`), recorded here by the property name. -/
inductive ResolvedValue where
  | tag (f : FileFormat)
  | inherited (propertyName : String)
  deriving DecidableEq, Repr

/-- The JavaScript `in` operator on one of the format tables: true for an
own key or for a name inherited from `Object.prototype`. -/
def jsIn (key : String) (table : List (String × FileFormat)) : Bool :=
  (table.lookup key).isSome || OBJECT_PROTOTYPE_KEYS.contains key

/-- A JavaScript property read `table[key]` under the assumption
`key in table`: the own value when `key` is an own key, otherwise the
inherited `Object.prototype` member. -/
def jsAccess (key : String) (table : List (String × FileFormat)) : ResolvedValue :=
  match table.lookup key with
  | some f => .tag f
  | none => .inherited key

/-- Every character of the string is ASCII. On ASCII strings the modelled
`jsToLowerCase` agrees exactly with the JavaScript full case map. -/
def isAsciiString (s : String) : Bool :=
  s.data.all (fun c => c.toNat ≤ 127)

/-- The message text of the error `resolveFormat` throws for an unmatched
identifier (the source message continues with a usage hint naming an
example slug and MIME type, elided here). -/
def unknownFormatMessage (formatStr : String) : String :=
  "Unknown format: " ++ formatStr

/-- `resolveFormat` of `types.ts`: `lowerFormat in SLUG_TO_FORMAT` first,
then `formatStr in MIME_TO_FORMAT`, and otherwise throw (modelled as
`Except.error`). The `in` checks use JavaScript `in`-operator semantics,
so a name inherited from `Object.prototype` (e.g. `constructor`) tests
true and the subsequent table read returns the inherited non-`FileFormat`
value instead of throwing. -/
def resolveFormat (formatStr : String) : Except String ResolvedValue :=
  let lowerFormat := jsToLowerCase formatStr
  if jsIn lowerFormat SLUG_TO_FORMAT then
    .ok (jsAccess lowerFormat SLUG_TO_FORMAT)
  else if jsIn formatStr MIME_TO_FORMAT then
    .ok (jsAccess formatStr MIME_TO_FORMAT)
  else
    .error (unknownFormatMessage formatStr)

/-! ## Capture Driver (`src/js/src/renderer.ts`, `Renderer.render`)

The driver's browser interactions are recorded as an event trace. Each
Playwright call emits one event when it is attempted; an environment flag
decides whether the call then throws, in which case control transfers to
the `catch` block, which closes the browser and re-throws. -/

/-- How a screenshot is taken: `page.screenshot` with `fullPage: false`, or
with a `clip` rectangle. -/
inductive ScreenshotKind where
  | fullPage (format : ImageFormat)
  | clip (format : ImageFormat) (x y width height : Int)
  deriving DecidableEq, Repr

/-- One browser interaction performed by `Renderer.render`. `gotoUrl`
models `page.goto(url, { waitUntil: 'networkidle' })` on the URL path;
`gotoTemplate` models `page.goto(fileUrlOfTemplate format)`;
`addInitScript` models the pre-navigation injection of the payload,
page-number and file-name globals; `evaluateRenderComplete` models the
`page.evaluate` that awaits the module's completion channel. -/
inductive Event where
  | browserLaunch
  | newPage (width height deviceScaleFactor : Int)
  | setViewportSize (width height : Int)
  | gotoUrl (url : String)
  | gotoTemplate (format : FileFormat)
  | addInitScript (pageNumber : Int)
  | evaluateRenderComplete
  | waitForTimeout (ms : Int)
  | screenshot (kind : ScreenshotKind)
  | browserClose
  deriving DecidableEq, Repr

/-- The external outcomes one driver run observes: `readFile` success, the
trimmed URL text the input file holds (URL path only), `page.goto` success,
the settling of the module's completion channel (`Except.error` covers both
a rejecting `renderComplete` and the driver's own throw when the binding is
missing), and `page.screenshot` success. -/
structure RenderEnv where
  fileReadOk : Bool
  urlContent : String
  gotoOk : Bool
  moduleOutcome : Except String RenderMetadata
  screenshotOk : Bool

/-- The capture strategy the driver selects from the metadata shape
(`renderer.ts` lines 144–186): both clip coordinates present selects the
clip path with the viewport grown to cover the clip rectangle; otherwise
the viewport-resize path sets the viewport to exactly the reported
content size. -/
inductive CaptureStrategy where
  | clipCapture (viewportWidth viewportHeight clipX clipY clipWidth clipHeight : Int)
  | viewportResize (viewportWidth viewportHeight : Int)
  deriving DecidableEq, Repr

/-- `if (clipX !== undefined && clipY !== undefined)`: the branch condition
and the geometry each branch computes, as a function of the initial
viewport and the metadata alone. -/
def chooseStrategy (initialWidth initialHeight : Int) (m : RenderMetadata) :
    CaptureStrategy :=
  match m.clipX, m.clipY with
  | some cx, some cy =>
    .clipCapture (max (cx + m.width) initialWidth) (max (cy + m.height) initialHeight)
      cx cy m.width m.height
  | _, _ => .viewportResize m.width m.height

/-- `Renderer.render`: the driver run after `chromium.launch` succeeded,
returning the thrown error or the `ScreenshotResult`, together with the
trace of browser interactions. Mirrors `renderer.ts` lines 59–204: default
image format png, initial viewport `width || 800` × `height || 600`,
`deviceScaleFactor = 2`, the URL special case with fallback viewport
`width || 1280` × `height || 800` (JavaScript falsy fallback: an explicit
0 falls back too, hence `jsOrInt` rather than a missing-only default;
the `page` and image-format options use destructuring defaults, which
replace only a missing value), payload/selector injection, template
navigation, completion-channel await, clip vs viewport-resize capture with
a 100 ms settle wait, `browser.close()` on the normal paths and in the
`catch` block, and result dimensions `metadata.width * 2` ×
`metadata.height * 2` (resp. the web viewport × 2 on the URL path). -/
def render (format : FileFormat) (opts : ScreenshotOptions) (env : RenderEnv) :
    Except String ScreenshotResult × List Event :=
  let imageFormat := opts.format
  let pageNumber := opts.page.getD 1
  let initialWidth := jsOrInt opts.width 800
  let initialHeight := jsOrInt opts.height 600
  let deviceScaleFactor : Int := 2
  let pre : List Event := [.browserLaunch, .newPage initialWidth initialHeight deviceScaleFactor]
  if format = .url then
    if ¬env.fileReadOk then
      (.error "readFile failed", pre ++ [.browserClose])
    else
      let webWidth := jsOrInt opts.width 1280
      let webHeight := jsOrInt opts.height 800
      let ev := pre ++ [.setViewportSize webWidth webHeight, .gotoUrl env.urlContent]
      if ¬env.gotoOk then
        (.error "goto failed", ev ++ [.browserClose])
      else
        let ev := ev ++ [.screenshot (.fullPage imageFormat)]
        if ¬env.screenshotOk then
          (.error "screenshot failed", ev ++ [.browserClose])
        else
          (.ok { format := imageFormat,
                 width := webWidth * deviceScaleFactor,
                 height := webHeight * deviceScaleFactor },
           ev ++ [.browserClose])
  else
    if ¬env.fileReadOk then
      (.error "readFile failed", pre ++ [.browserClose])
    else
      let ev := pre ++ [.addInitScript pageNumber]
      if format = .unknown then
        (.error "No template available for format: unknown", ev ++ [.browserClose])
      else
        let ev := ev ++ [.gotoTemplate format]
        if ¬env.gotoOk then
          (.error "goto failed", ev ++ [.browserClose])
        else
          let ev := ev ++ [.evaluateRenderComplete]
          match env.moduleOutcome with
          | .error e => (.error e, ev ++ [.browserClose])
          | .ok metadata =>
            match chooseStrategy initialWidth initialHeight metadata with
            | .clipCapture vw vh cx cy cw ch =>
              let ev := ev ++ [.setViewportSize vw vh, .waitForTimeout 100,
                               .screenshot (.clip imageFormat cx cy cw ch)]
              if ¬env.screenshotOk then
                (.error "screenshot failed", ev ++ [.browserClose])
              else
                (.ok { format := imageFormat,
                       width := metadata.width * deviceScaleFactor,
                       height := metadata.height * deviceScaleFactor },
                 ev ++ [.browserClose])
            | .viewportResize vw vh =>
              let ev := ev ++ [.setViewportSize vw vh, .waitForTimeout 100,
                               .screenshot (.fullPage imageFormat)]
              if ¬env.screenshotOk then
                (.error "screenshot failed", ev ++ [.browserClose])
              else
                (.ok { format := imageFormat,
                       width := metadata.width * deviceScaleFactor,
                       height := metadata.height * deviceScaleFactor },
                 ev ++ [.browserClose])

/-- The `screenshot` entry point of `src/js/src/index.ts`: resolve the
format first, then construct the `Renderer` and run `render`. A resolver
failure propagates before any browser interaction happens, hence the empty
trace. When the resolver returns a value inherited from
`Object.prototype`, that junk value reaches `Renderer.render`: it is not
`'url'`, the browser is launched, the file is read and injected, and the
`templateMap` lookup yields `undefined`, so `getTemplatePath` throws
inside the `try` and the `catch` closes the browser. -/
def screenshot (inputFormat : String) (opts : ScreenshotOptions) (env : RenderEnv) :
    Except String ScreenshotResult × List Event :=
  match resolveFormat inputFormat with
  | .error e => (.error e, [])
  | .ok (.tag format) => render format opts env
  | .ok (.inherited _) =>
    let initialWidth := jsOrInt opts.width 800
    let initialHeight := jsOrInt opts.height 600
    let pre : List Event := [.browserLaunch, .newPage initialWidth initialHeight 2]
    if ¬env.fileReadOk then
      (.error "readFile failed", pre ++ [.browserClose])
    else
      (.error "No template available for format: [inherited value]",
       pre ++ [.addInitScript (opts.page.getD 1), .browserClose])

/-- Net number of browser processes left open by a trace: launches minus
closes. -/
def openBrowsers (trace : List Event) : Int :=
  trace.foldl
    (fun n e =>
      match e with
      | .browserLaunch => n + 1
      | .browserClose => n - 1
      | _ => n)
    0

/-! ## Concrete fixtures used by counterexamples and witnesses -/

/-- A three-page letter-size document: pdf.js reports a 612×792 viewport
for each page at scale 1. -/
def threePagePdf : PdfDocument :=
  ⟨[⟨612, 792⟩, ⟨612, 792⟩, ⟨612, 792⟩]⟩

/-- A fully healthy PDF render environment whose injected page selector 5
is out of range for the three-page document. -/
def pdfEnvPage5 : PdfEnv :=
  { injectedFileBase64 := some "JVBERi0xLjQ=", injectedPageNumber := some 5,
    canvasPresent := true, decodeOk := true, pdfLoad := .ok threePagePdf,
    contextOk := true, renderOk := true }

/-- A healthy markdown render environment with 3000 px of content and an
out-of-range injected page selector 7. -/
def mdEnvPage7 : MdEnv :=
  { injectedFileBase64 := some "SGVsbG8=", injectedPageNumber := some 7,
    containerPresent := true, decodeOk := true, scrollHeight := 3000 }

/-! ## Helper lemmas -/

/-- `getPage` rejects whenever the requested page is outside
`[1, numPages]`. -/
lemma getPage_out_of_range (pdf : PdfDocument) (n : Int)
    (h : ¬(1 ≤ n ∧ n ≤ (pdf.pages.length : Int))) :
    getPage pdf n = .error "Invalid page request" := by
  unfold getPage
  by_cases h1 : 1 ≤ n
  · have h2 : pdf.pages.length ≤ (n - 1).toNat := by omega
    rw [if_pos h1, List.get?_eq_none.mpr h2]
  · rw [if_neg h1]

/-- A successful association-list lookup means the key is one of the listed
keys. -/
lemma key_mem_of_lookup_some {α β : Type} [BEq α] [LawfulBEq α]
    (l : List (α × β)) (k : α) (v : β) (h : l.lookup k = some v) :
    k ∈ l.map Prod.fst := by
  induction l with
  | nil => simp [List.lookup] at h
  | cons p t ih =>
    obtain ⟨pk, pv⟩ := p
    rw [List.lookup] at h
    cases hbeq : k == pk with
    | true =>
      simp only [List.map_cons, List.mem_cons]
      exact Or.inl (eq_of_beq hbeq)
    | false =>
      rw [hbeq] at h
      simp only [List.map_cons, List.mem_cons]
      exact Or.inr (ih h)

/-- No MIME key (they all contain a slash) lowercases to an
`Object.prototype` property name. -/
lemma mime_key_not_prototype (s : String) (f : FileFormat)
    (h : MIME_TO_FORMAT.lookup s = some f) :
    OBJECT_PROTOTYPE_KEYS.contains (jsToLowerCase s) = false := by
  have hs := key_mem_of_lookup_some MIME_TO_FORMAT s f h
  fin_cases hs <;> decide

/-- Characterization of the derived page count: for positive content height
it is at least 1 and brackets `totalHeight` between `(pageCount-1)` and
`pageCount` viewports. -/
lemma mdPaginate_pageCount_bounds (T p : Int) (hT : 0 < T) :
    1 ≤ (mdPaginate T p).pageCount ∧
    ((mdPaginate T p).pageCount - 1) * 1280 < T ∧
    T ≤ (mdPaginate T p).pageCount * 1280 := by
  simp only [mdPaginate, jsCeilDiv, VIEWPORT_HEIGHT]
  omega

/-- The page heights of pages `1..pageCount` sum to the total content
height. -/
lemma mdPaginate_sum_pageHeights (T : Int) (hT : 0 < T) :
    ∑ i in Finset.range (mdPaginate T 1).pageCount.toNat,
      (mdPaginate T ((i : Int) + 1)).pageHeight = T := by
  obtain ⟨m, hm⟩ : ∃ m, (mdPaginate T 1).pageCount.toNat = m + 1 := by
    refine ⟨(mdPaginate T 1).pageCount.toNat - 1, ?_⟩
    have h1 := (mdPaginate_pageCount_bounds T 1 hT).1
    omega
  simp only [mdPaginate, jsCeilDiv, VIEWPORT_HEIGHT] at hm ⊢
  rw [hm, Finset.sum_range_succ]
  have h1 : ∀ i ∈ Finset.range m,
      min 1280 (T - (max 1 (min ((i : Int) + 1) (max 1 (-(-T / 1280)))) - 1) * 1280)
        = 1280 := by
    intro i hi
    rw [Finset.mem_range] at hi
    omega
  rw [Finset.sum_congr rfl h1, Finset.sum_const, nsmul_eq_mul, Finset.card_range]
  omega

/-- The derived page count equals the true ceiling of
`totalHeight / viewportHeight` taken over the rationals. -/
lemma mdPaginate_pageCount_eq_ceil (T p : Int) (hT : 0 < T) :
    (mdPaginate T p).pageCount = ⌈(T : ℚ) / 1280⌉ := by
  obtain ⟨h1, h2, h3⟩ := mdPaginate_pageCount_bounds T p hT
  symm
  rw [Int.ceil_eq_iff]
  constructor
  · rw [show ((mdPaginate T p).pageCount : ℚ) - 1
        = (((mdPaginate T p).pageCount - 1 : Int) : ℚ) by push_cast; ring]
    rw [lt_div_iff₀ (by norm_num : (0 : ℚ) < 1280)]
    exact_mod_cast h2
  · rw [div_le_iff₀ (by norm_num : (0 : ℚ) < 1280)]
    exact_mod_cast h3

/-! ## Claim C1 -/

/-- C1: for every `totalHeight > 0` and the fixed viewport height 1280, the
markdown renderer's pseudo-pagination yields
`pageCount = ceil(totalHeight / 1280)`,
`scrollOffset = (targetPage - 1) * 1280`,
`pageHeight = min (1280, totalHeight - scrollOffset)`, the page heights of
pages `1..pageCount` sum to `totalHeight`, and in particular
`totalHeight = 3000` with `requestedPage = 2` yields `pageCount = 3`,
`scrollOffset = 1280`, `pageHeight = 1280`. -/
theorem md_pseudo_pagination_invariant (totalHeight pageNumber : Int)
    (hT : 0 < totalHeight) :
    (mdPaginate totalHeight pageNumber).pageCount = ⌈(totalHeight : ℚ) / 1280⌉ ∧
    (mdPaginate totalHeight pageNumber).scrollY =
      ((mdPaginate totalHeight pageNumber).targetPage - 1) * 1280 ∧
    (mdPaginate totalHeight pageNumber).pageHeight =
      min 1280 (totalHeight - (mdPaginate totalHeight pageNumber).scrollY) ∧
    (∑ i in Finset.range (mdPaginate totalHeight pageNumber).pageCount.toNat,
        (mdPaginate totalHeight ((i : Int) + 1)).pageHeight) = totalHeight ∧
    mdPaginate 3000 2 = ⟨3, 2, 1280, 1280⟩ := by
  refine ⟨mdPaginate_pageCount_eq_ceil totalHeight pageNumber hT, rfl, rfl, ?_, by decide⟩
  exact mdPaginate_sum_pageHeights totalHeight hT

/-- Witness for `md_pseudo_pagination_invariant` at `totalHeight = 3000`,
`requestedPage = 2`. -/
theorem md_pseudo_pagination_invariant_witness :
    (0 : Int) < 3000 ∧
    ((mdPaginate 3000 2).pageCount = ⌈((3000 : Int) : ℚ) / 1280⌉ ∧
     (mdPaginate 3000 2).scrollY = ((mdPaginate 3000 2).targetPage - 1) * 1280 ∧
     (mdPaginate 3000 2).pageHeight = min 1280 (3000 - (mdPaginate 3000 2).scrollY) ∧
     (∑ i in Finset.range (mdPaginate 3000 2).pageCount.toNat,
        (mdPaginate 3000 ((i : Int) + 1)).pageHeight) = 3000 ∧
     mdPaginate 3000 2 = ⟨3, 2, 1280, 1280⟩) :=
  ⟨by decide, md_pseudo_pagination_invariant 3000 2 (by decide)⟩

/-! ## Claim C2 -/

/-- C2 counterexample: the PDF renderer does not clamp the requested page.
With a healthy environment and page 5 requested of a three-page document,
`renderPDF` passes 5 to `getPage` unchanged and the render fails with an
invalid-page error instead of completing on a clamped page. -/
theorem renderPDF_page5_of_3_errors :
    renderPDF pdfEnvPage5 = .error "Invalid page request" := by
  rfl

/-- C2 amended: only the pseudo-pagination path clamps. The markdown
renderer clamps every requested page into `[1, pageCount]` and completes;
the PDF renderer passes the requested page through unclamped, so any
out-of-range request makes the render fail rather than clamp. -/
theorem page_clamping_pseudo_only :
    (∀ env : MdEnv, env.containerPresent = true → env.decodeOk = true →
      jsOrString env.injectedFileBase64 FILE_BASE64_PLACEHOLDER ≠ FILE_BASE64_PLACEHOLDER →
      ∃ m : RenderMetadata, renderMarkdown env = .ok m ∧
        1 ≤ m.pageNumber ∧ m.pageNumber ≤ m.pageCount) ∧
    (∀ (env : PdfEnv) (pdf : PdfDocument), env.pdfLoad = .ok pdf →
      jsOrString env.injectedFileBase64 FILE_BASE64_PLACEHOLDER ≠ FILE_BASE64_PLACEHOLDER →
      ¬(1 ≤ jsOrInt env.injectedPageNumber 1 ∧
        jsOrInt env.injectedPageNumber 1 ≤ (pdf.pages.length : Int)) →
      ∃ e, renderPDF env = .error e) := by
  constructor
  · intro env hc hd hnp
    have hU : renderMarkdown env = .ok
        { width := VIEWPORT_WIDTH,
          height := (mdPaginate env.scrollHeight (jsOrInt env.injectedPageNumber 1)).pageHeight,
          pageCount := (mdPaginate env.scrollHeight (jsOrInt env.injectedPageNumber 1)).pageCount,
          pageNumber := (mdPaginate env.scrollHeight (jsOrInt env.injectedPageNumber 1)).targetPage,
          scale := 2 } := by
      simp [renderMarkdown, hc, hd, hnp]
    refine ⟨_, hU, ?_, ?_⟩ <;>
      · simp only [mdPaginate, jsCeilDiv, VIEWPORT_HEIGHT]
        omega
  · intro env pdf hload hnp hout
    by_cases hcv : env.canvasPresent
    · by_cases hdk : env.decodeOk
      · exact ⟨"Invalid page request",
          by simp [renderPDF, hcv, hdk, hnp, hload, getPage_out_of_range pdf _ hout]⟩
      · exact ⟨"InvalidCharacterError: atob failed",
          by simp [renderPDF, hcv, hdk, hnp]⟩
    · exact ⟨"Canvas element not found", by simp [renderPDF, hcv]⟩

/-- Witness for `page_clamping_pseudo_only`: the markdown path at an
out-of-range request 7 over 3000 px of content, and the PDF path at
request 5 over a three-page document. -/
theorem page_clamping_pseudo_only_witness :
    (∃ m : RenderMetadata, renderMarkdown mdEnvPage7 = .ok m ∧
      1 ≤ m.pageNumber ∧ m.pageNumber ≤ m.pageCount) ∧
    (∃ e, renderPDF pdfEnvPage5 = .error e) :=
  ⟨page_clamping_pseudo_only.1 mdEnvPage7 (by decide) (by decide) (by decide),
   page_clamping_pseudo_only.2 pdfEnvPage5 threePagePdf rfl (by decide) (by decide)⟩

/-! ## Driver trace equations -/

/-- A successful module render whose strategy is the clip capture: the full
driver outcome and trace. -/
lemma render_module_ok_clip (format : FileFormat) (opts : ScreenshotOptions)
    (env : RenderEnv) (m : RenderMetadata) (vw vh cx cy cw ch : Int)
    (hfmt₁ : format ≠ .url) (hfmt₂ : format ≠ .unknown)
    (hread : env.fileReadOk = true) (hgoto : env.gotoOk = true)
    (hshot : env.screenshotOk = true) (hmod : env.moduleOutcome = .ok m)
    (hcs : chooseStrategy (jsOrInt opts.width 800) (jsOrInt opts.height 600) m =
      .clipCapture vw vh cx cy cw ch) :
    render format opts env =
      (.ok { format := opts.format, width := m.width * 2, height := m.height * 2 },
       [.browserLaunch, .newPage (jsOrInt opts.width 800) (jsOrInt opts.height 600) 2,
        .addInitScript (opts.page.getD 1), .gotoTemplate format,
        .evaluateRenderComplete, .setViewportSize vw vh, .waitForTimeout 100,
        .screenshot (.clip opts.format cx cy cw ch), .browserClose]) := by
  simp [render, hfmt₁, hfmt₂, hread, hgoto, hshot, hmod, hcs]

/-- A successful module render whose strategy is the viewport resize: the
full driver outcome and trace. -/
lemma render_module_ok_viewport (format : FileFormat) (opts : ScreenshotOptions)
    (env : RenderEnv) (m : RenderMetadata) (vw vh : Int)
    (hfmt₁ : format ≠ .url) (hfmt₂ : format ≠ .unknown)
    (hread : env.fileReadOk = true) (hgoto : env.gotoOk = true)
    (hshot : env.screenshotOk = true) (hmod : env.moduleOutcome = .ok m)
    (hcs : chooseStrategy (jsOrInt opts.width 800) (jsOrInt opts.height 600) m =
      .viewportResize vw vh) :
    render format opts env =
      (.ok { format := opts.format, width := m.width * 2, height := m.height * 2 },
       [.browserLaunch, .newPage (jsOrInt opts.width 800) (jsOrInt opts.height 600) 2,
        .addInitScript (opts.page.getD 1), .gotoTemplate format,
        .evaluateRenderComplete, .setViewportSize vw vh, .waitForTimeout 100,
        .screenshot (.fullPage opts.format), .browserClose]) := by
  simp [render, hfmt₁, hfmt₂, hread, hgoto, hshot, hmod, hcs]

/-! ## Claim C3 -/

/-- C3: strategy selection is a pure function of the metadata shape.
Metadata with both clip coordinates present always selects the clip
capture (and the driver's trace then contains the clipped screenshot);
metadata without them always selects the viewport resize to exactly
`(metadata.width, metadata.height)` (and the trace then contains that
viewport resize followed by a full screenshot). -/
theorem capture_strategy_selection (m : RenderMetadata) :
    (∀ iw ih cx cy, m.clipX = some cx → m.clipY = some cy →
      chooseStrategy iw ih m =
        .clipCapture (max (cx + m.width) iw) (max (cy + m.height) ih)
          cx cy m.width m.height) ∧
    (∀ iw ih, m.clipX = none → m.clipY = none →
      chooseStrategy iw ih m = .viewportResize m.width m.height) ∧
    (∀ format opts env cx cy, format ≠ .url → format ≠ .unknown →
      env.fileReadOk = true → env.gotoOk = true → env.screenshotOk = true →
      env.moduleOutcome = .ok m → m.clipX = some cx → m.clipY = some cy →
      Event.screenshot (.clip opts.format cx cy m.width m.height)
        ∈ (render format opts env).2) ∧
    (∀ format opts env, format ≠ .url → format ≠ .unknown →
      env.fileReadOk = true → env.gotoOk = true → env.screenshotOk = true →
      env.moduleOutcome = .ok m → m.clipX = none → m.clipY = none →
      Event.setViewportSize m.width m.height ∈ (render format opts env).2 ∧
      Event.screenshot (.fullPage opts.format) ∈ (render format opts env).2) := by
  refine ⟨?_, ?_, ?_, ?_⟩
  · intro iw ih cx cy hcx hcy
    simp [chooseStrategy, hcx, hcy]
  · intro iw ih hcx hcy
    simp [chooseStrategy, hcx, hcy]
  · intro format opts env cx cy hfmt₁ hfmt₂ hread hgoto hshot hmod hcx hcy
    rw [render_module_ok_clip format opts env m
      (max (cx + m.width) (jsOrInt opts.width 800))
      (max (cy + m.height) (jsOrInt opts.height 600)) cx cy m.width m.height
      hfmt₁ hfmt₂ hread hgoto hshot hmod (by simp [chooseStrategy, hcx, hcy])]
    simp
  · intro format opts env hfmt₁ hfmt₂ hread hgoto hshot hmod hcx hcy
    rw [render_module_ok_viewport format opts env m m.width m.height
      hfmt₁ hfmt₂ hread hgoto hshot hmod (by simp [chooseStrategy, hcx, hcy])]
    simp

/-- Witness for `capture_strategy_selection`: the EPUB-style clip metadata
`{width 1334, height 1831, clipX 133, clipY 0}` and the PDF-style no-clip
metadata `{width 1224, height 1584}`, each run through a healthy driver
environment. -/
theorem capture_strategy_selection_witness :
    chooseStrategy 800 600 ⟨1334, 1831, 1, 1, 2, some 133, some 0⟩ =
      .clipCapture 1467 1831 133 0 1334 1831 ∧
    chooseStrategy 800 600 ⟨1224, 1584, 3, 2, 2, none, none⟩ =
      .viewportResize 1224 1584 ∧
    Event.screenshot (.clip .png 133 0 1334 1831) ∈
      (render .epub {} ⟨true, "", true, .ok ⟨1334, 1831, 1, 1, 2, some 133, some 0⟩, true⟩).2 ∧
    Event.setViewportSize 1224 1584 ∈
      (render .pdf {} ⟨true, "", true, .ok ⟨1224, 1584, 3, 2, 2, none, none⟩, true⟩).2 := by
  refine ⟨?_, ?_, ?_, ?_⟩
  · have h := (capture_strategy_selection ⟨1334, 1831, 1, 1, 2, some 133, some 0⟩).1
      800 600 133 0 rfl rfl
    simpa using h
  · have h := (capture_strategy_selection ⟨1224, 1584, 3, 2, 2, none, none⟩).2.1
      800 600 rfl rfl
    simpa using h
  · exact (capture_strategy_selection ⟨1334, 1831, 1, 1, 2, some 133, some 0⟩).2.2.1
      .epub {} ⟨true, "", true, .ok ⟨1334, 1831, 1, 1, 2, some 133, some 0⟩, true⟩
      133 0 (by decide) (by decide) rfl rfl rfl rfl rfl rfl
  · exact ((capture_strategy_selection ⟨1224, 1584, 3, 2, 2, none, none⟩).2.2.2
      .pdf {} ⟨true, "", true, .ok ⟨1224, 1584, 3, 2, 2, none, none⟩, true⟩
      (by decide) (by decide) rfl rfl rfl rfl rfl rfl).1

/-! ## Claim C4 -/

/-- C4: every render that goes through a module returns
`metadata.width * 2` × `metadata.height * 2` as the capture result
dimensions, regardless of format and of whether the clip path was taken;
in particular metadata `{width 1224, height 1584}` with no clip fields
yields a 2448×3168 result and `{width 1334, height 1831, clipX 133,
clipY 0}` yields a 2668×3662 result. -/
theorem capture_result_scaling (format : FileFormat) (opts : ScreenshotOptions)
    (env : RenderEnv) (m : RenderMetadata)
    (hfmt₁ : format ≠ .url) (hfmt₂ : format ≠ .unknown)
    (hread : env.fileReadOk = true) (hgoto : env.gotoOk = true)
    (hshot : env.screenshotOk = true) (hmod : env.moduleOutcome = .ok m) :
    (render format opts env).1 =
      .ok { format := opts.format, width := m.width * 2, height := m.height * 2 } ∧
    (render .pdf {} ⟨true, "", true, .ok ⟨1224, 1584, 3, 2, 2, none, none⟩, true⟩).1 =
      .ok { format := .png, width := 2448, height := 3168 } ∧
    (render .epub {} ⟨true, "", true, .ok ⟨1334, 1831, 1, 1, 2, some 133, some 0⟩, true⟩).1 =
      .ok { format := .png, width := 2668, height := 3662 } := by
  refine ⟨?_, by rfl, by rfl⟩
  rcases hcs : chooseStrategy (jsOrInt opts.width 800) (jsOrInt opts.height 600) m with
    ⟨vw, vh, cx, cy, cw, ch⟩ | ⟨vw, vh⟩
  · rw [render_module_ok_clip format opts env m vw vh cx cy cw ch
      hfmt₁ hfmt₂ hread hgoto hshot hmod hcs]
  · rw [render_module_ok_viewport format opts env m vw vh
      hfmt₁ hfmt₂ hread hgoto hshot hmod hcs]

/-- Witness for `capture_result_scaling` at the Scenario A metadata through
a healthy PDF-format driver run. -/
theorem capture_result_scaling_witness :
    (render .pdf {} ⟨true, "", true, .ok ⟨1224, 1584, 3, 2, 2, none, none⟩, true⟩).1 =
      .ok { format := .png, width := 1224 * 2, height := 1584 * 2 } :=
  (capture_result_scaling .pdf {} ⟨true, "", true, .ok ⟨1224, 1584, 3, 2, 2, none, none⟩, true⟩
    ⟨1224, 1584, 3, 2, 2, none, none⟩ (by decide) (by decide) rfl rfl rfl rfl).1

/-! ## Claim C5 -/

/-- C5 (code defect): the completion channel is not never-rejecting. Both
`renderMarkdown` and `renderPDF` end in a `catch` block that re-throws, so
an internal decode failure (here: a payload `atob` cannot decode) makes
`window.renderComplete` reject with the error instead of resolving with
best-effort metadata. -/
theorem renderComplete_rejects_on_decode_failure :
    renderMarkdown { injectedFileBase64 := some "%%%", injectedPageNumber := some 1,
                     containerPresent := true, decodeOk := false, scrollHeight := 0 }
      = .error "InvalidCharacterError: atob failed" ∧
    renderPDF { injectedFileBase64 := some "%%%", injectedPageNumber := some 1,
                canvasPresent := true, decodeOk := false,
                pdfLoad := .error "not reached", contextOk := true, renderOk := true }
      = .error "InvalidCharacterError: atob failed" :=
  ⟨rfl, rfl⟩

/-! ## Claim C6 -/

/-- C6: after the browser is launched, every exit path of the driver — both
capture strategies, the URL special case, and every exception path
(file read, missing template, navigation, module evaluation, screenshot) —
closes the browser before returning or re-throwing: the trace always ends
with `browserClose` and leaves zero browsers open. -/
theorem browser_closed_on_every_path (format : FileFormat)
    (opts : ScreenshotOptions) (env : RenderEnv) :
    openBrowsers (render format opts env).2 = 0 ∧
    (render format opts env).2.getLast? = some .browserClose := by
  obtain ⟨fr, uc, go, mo, so⟩ := env
  by_cases h1 : format = FileFormat.url
  · subst h1
    cases fr <;> cases go <;> cases so <;> exact ⟨rfl, rfl⟩
  · by_cases h2 : format = FileFormat.unknown
    · subst h2
      cases fr <;> exact ⟨rfl, rfl⟩
    · simp only [render, if_neg h1, if_neg h2]
      cases fr
      · exact ⟨rfl, rfl⟩
      · cases go
        · exact ⟨rfl, rfl⟩
        · cases mo with
          | error e => exact ⟨rfl, rfl⟩
          | ok m =>
            obtain ⟨w, h, pc, pn, s, cx, cy⟩ := m
            cases cx <;> cases cy <;> cases so <;> exact ⟨rfl, rfl⟩

/-! ## Claim C7 -/

/-- C7 counterexample: the resolver is not total in the claimed sense. The
identifier `constructor` is an own key of neither table, yet
`resolveFormat` does not signal the unknown-format error: the JavaScript
`in` check hits `Object.prototype.constructor`, so the table read returns
that inherited non-`FileFormat` value. -/
theorem resolveFormat_constructor_inherited :
    SLUG_TO_FORMAT.lookup "constructor" = none ∧
    MIME_TO_FORMAT.lookup "constructor" = none ∧
    resolveFormat "constructor" = .ok (.inherited "constructor") := by
  decide

/-- C7 amended: slug-first resolution under JavaScript `in`-operator
semantics. An own slug-table hit on the lowercased identifier wins;
failing the slug `in` check, an own MIME-table hit on the original
identifier wins; every whitelisted slug and MIME key resolves to its tag;
an ASCII identifier passing neither `in` check (own keys plus the
`Object.prototype` names) — such as `application/x-unknown` — yields the
unknown-format error, and the `screenshot` entry point then propagates it
with an empty browser trace, so no browser resource is ever acquired.
An `Object.prototype` name such as `constructor` instead resolves to the
inherited non-`FileFormat` value. -/
theorem format_resolver_total_slug_first :
    (∀ s f, SLUG_TO_FORMAT.lookup (jsToLowerCase s) = some f →
      resolveFormat s = .ok (.tag f)) ∧
    (∀ s f, jsIn (jsToLowerCase s) SLUG_TO_FORMAT = false →
      MIME_TO_FORMAT.lookup s = some f → resolveFormat s = .ok (.tag f)) ∧
    (∀ s, isAsciiString s = true →
      jsIn (jsToLowerCase s) SLUG_TO_FORMAT = false →
      jsIn s MIME_TO_FORMAT = false →
      resolveFormat s = .error (unknownFormatMessage s)) ∧
    (∀ p ∈ SLUG_TO_FORMAT, resolveFormat p.1 = .ok (.tag p.2)) ∧
    (∀ p ∈ MIME_TO_FORMAT, resolveFormat p.1 = .ok (.tag p.2)) ∧
    resolveFormat "constructor" = .ok (.inherited "constructor") ∧
    resolveFormat "application/x-unknown" =
      .error (unknownFormatMessage "application/x-unknown") ∧
    (∀ opts env, screenshot "application/x-unknown" opts env =
      (.error (unknownFormatMessage "application/x-unknown"), [])) := by
  refine ⟨?_, ?_, ?_, by decide, by decide, by decide, by rfl, ?_⟩
  · intro s f h
    have hin : jsIn (jsToLowerCase s) SLUG_TO_FORMAT = true := by
      unfold jsIn
      rw [h]
      rfl
    simp [resolveFormat, hin, jsAccess, h]
  · intro s f h1 h2
    have hin : jsIn s MIME_TO_FORMAT = true := by
      unfold jsIn
      rw [h2]
      rfl
    simp [resolveFormat, h1, hin, jsAccess, h2]
  · intro s _ h1 h2
    simp [resolveFormat, h1, h2]
  · intro opts env
    rfl

/-- Witness for `format_resolver_total_slug_first`: the slug branch at
`"pdf"`, the MIME branch at `"text/markdown"`, and the unmatched branch
at `"application/x-unknown"`. -/
theorem format_resolver_total_slug_first_witness :
    resolveFormat "pdf" = .ok (.tag .pdf) ∧
    resolveFormat "text/markdown" = .ok (.tag .md) ∧
    resolveFormat "application/x-unknown" =
      .error (unknownFormatMessage "application/x-unknown") :=
  ⟨format_resolver_total_slug_first.1 "pdf" .pdf (by decide),
   format_resolver_total_slug_first.2.1 "text/markdown" .md (by decide) (by decide),
   format_resolver_total_slug_first.2.2.1 "application/x-unknown"
     (by decide) (by decide) (by decide)⟩

/-! ## Claim C8 -/

/-- C8: two renders whose metadata differ only in the informational `scale`
field produce identical driver outcomes — same events (hence same viewport
sizes) and same capture-result dimensions. The driver sizes everything
with the fixed device pixel scale 2 and never reads `metadata.scale`. -/
theorem scale_field_never_read (format : FileFormat) (opts : ScreenshotOptions)
    (env : RenderEnv) (m₁ m₂ : RenderMetadata)
    (hw : m₁.width = m₂.width) (hh : m₁.height = m₂.height)
    (hpc : m₁.pageCount = m₂.pageCount) (hpn : m₁.pageNumber = m₂.pageNumber)
    (hcx : m₁.clipX = m₂.clipX) (hcy : m₁.clipY = m₂.clipY) :
    render format opts { env with moduleOutcome := .ok m₁ } =
    render format opts { env with moduleOutcome := .ok m₂ } := by
  obtain ⟨w₁, h₁, pc₁, pn₁, s₁, cx₁, cy₁⟩ := m₁
  obtain ⟨w₂, h₂, pc₂, pn₂, s₂, cx₂, cy₂⟩ := m₂
  dsimp only at hw hh hpc hpn hcx hcy
  subst hw hh hpc hpn hcx hcy
  cases cx₁ <;> cases cy₁ <;> rfl

/-- Witness for `scale_field_never_read`: Scenario A metadata with
`scale = 2.0` against the same metadata with `scale = 1.0`. -/
theorem scale_field_never_read_witness :
    render .pdf {} ⟨true, "", true, .ok ⟨1224, 1584, 3, 2, 2, none, none⟩, true⟩ =
    render .pdf {} ⟨true, "", true, .ok ⟨1224, 1584, 3, 2, 1, none, none⟩, true⟩ :=
  scale_field_never_read .pdf {} ⟨true, "", true, .ok ⟨1224, 1584, 3, 2, 2, none, none⟩, true⟩
    ⟨1224, 1584, 3, 2, 2, none, none⟩ ⟨1224, 1584, 3, 2, 1, none, none⟩
    rfl rfl rfl rfl rfl rfl

/-! ## Claim C9 -/

/-- C9: a render with the `url` format tag never navigates to a module
template, never injects the payload/selector globals, and never awaits a
completion channel; when the input file is readable it navigates to the
file's URL text (with network-idle wait), and on success it screenshots
the `width || 1280` × `height || 800` viewport and returns those
dimensions times the device pixel scale — in particular, with no explicit
viewport options, the fixed fallback viewport 1280×800 and a 2560×1600
result. -/
theorem url_direct_navigation (opts : ScreenshotOptions) (env : RenderEnv) :
    (∀ f, Event.gotoTemplate f ∉ (render .url opts env).2) ∧
    (∀ p, Event.addInitScript p ∉ (render .url opts env).2) ∧
    Event.evaluateRenderComplete ∉ (render .url opts env).2 ∧
    (env.fileReadOk = true →
      Event.gotoUrl env.urlContent ∈ (render .url opts env).2) ∧
    (env.fileReadOk = true → env.gotoOk = true → env.screenshotOk = true →
      (render .url opts env).1 =
        .ok { format := opts.format, width := (jsOrInt opts.width 1280) * 2,
              height := (jsOrInt opts.height 800) * 2 } ∧
      Event.setViewportSize (jsOrInt opts.width 1280) (jsOrInt opts.height 800)
        ∈ (render .url opts env).2 ∧
      Event.screenshot (.fullPage opts.format) ∈ (render .url opts env).2) ∧
    (opts.width = none → opts.height = none → env.fileReadOk = true →
      env.gotoOk = true → env.screenshotOk = true →
      Event.setViewportSize 1280 800 ∈ (render .url opts env).2 ∧
      (render .url opts env).1 =
        .ok { format := opts.format, width := 2560, height := 1600 }) := by
  obtain ⟨fr, uc, go, mo, so⟩ := env
  refine ⟨?_, ?_, ?_, ?_, ?_, ?_⟩
  · intro f
    cases fr <;> cases go <;> cases so <;> simp [render]
  · intro p
    cases fr <;> cases go <;> cases so <;> simp [render]
  · cases fr <;> cases go <;> cases so <;> simp [render]
  · intro hread
    cases hread
    cases go <;> cases so <;> simp [render]
  · intro hread hgoto hshot
    cases hread
    cases hgoto
    cases hshot
    refine ⟨rfl, by simp [render], by simp [render]⟩
  · intro hw hh hread hgoto hshot
    cases hread
    cases hgoto
    cases hshot
    refine ⟨by simp [render, jsOrInt, hw, hh], ?_⟩
    simp [render, jsOrInt, hw, hh]

/-- Witness for `url_direct_navigation`: a healthy URL render of
`https://example.com` with default options. -/
theorem url_direct_navigation_witness :
    Event.evaluateRenderComplete ∉
      (render .url {} ⟨true, "https://example.com", true, .error "", true⟩).2 ∧
    Event.gotoUrl "https://example.com" ∈
      (render .url {} ⟨true, "https://example.com", true, .error "", true⟩).2 ∧
    Event.setViewportSize 1280 800 ∈
      (render .url {} ⟨true, "https://example.com", true, .error "", true⟩).2 ∧
    (render .url {} ⟨true, "https://example.com", true, .error "", true⟩).1 =
      .ok { format := .png, width := 2560, height := 1600 } := by
  have h := url_direct_navigation {} ⟨true, "https://example.com", true, .error "", true⟩
  exact ⟨h.2.2.1, h.2.2.2.1 rfl, (h.2.2.2.2.2 rfl rfl rfl rfl rfl).1,
    (h.2.2.2.2.2 rfl rfl rfl rfl rfl).2⟩

/-! ## Claim C10 -/

/-- C10 (implicit): format resolution is case-insensitive for slugs and
case-sensitive for MIME types — `resolveFormat` yields a `FileFormat` tag
exactly when the lowercased identifier is an own slug key, or misses the
slug table and the original identifier is an own MIME key (inherited
`Object.prototype` hits never yield a tag); hence `"PDF"` resolves to the
pdf tag while `"Application/PDF"` signals the unknown-format error (and
`"application/pdf"` resolves through the MIME table). -/
theorem resolveFormat_case_handling :
    (∀ s f, resolveFormat s = .ok (.tag f) ↔
      (SLUG_TO_FORMAT.lookup (jsToLowerCase s) = some f ∨
       (SLUG_TO_FORMAT.lookup (jsToLowerCase s) = none ∧
        MIME_TO_FORMAT.lookup s = some f))) ∧
    resolveFormat "PDF" = .ok (.tag .pdf) ∧
    resolveFormat "Application/PDF" =
      .error (unknownFormatMessage "Application/PDF") ∧
    resolveFormat "application/pdf" = .ok (.tag .pdf) := by
  refine ⟨?_, by decide, by decide, by decide⟩
  intro s f
  cases h1 : SLUG_TO_FORMAT.lookup (jsToLowerCase s) with
  | some g =>
    have hin : jsIn (jsToLowerCase s) SLUG_TO_FORMAT = true := by
      unfold jsIn
      rw [h1]
      rfl
    simp [resolveFormat, hin, jsAccess, h1]
  | none =>
    cases hproto : OBJECT_PROTOTYPE_KEYS.contains (jsToLowerCase s) with
    | true =>
      have hin : jsIn (jsToLowerCase s) SLUG_TO_FORMAT = true := by
        unfold jsIn
        rw [h1, hproto]
        rfl
      simp only [resolveFormat, hin, if_true, jsAccess, h1]
      constructor
      · intro hc
        exact absurd (Except.ok.inj hc) (by simp)
      · rintro (hc | ⟨-, hm⟩)
        · simp [h1] at hc
        · exact absurd (mime_key_not_prototype s f hm) (by rw [hproto]; simp)
    | false =>
      have hin : jsIn (jsToLowerCase s) SLUG_TO_FORMAT = false := by
        unfold jsIn
        rw [h1, hproto]
        rfl
      cases h2 : MIME_TO_FORMAT.lookup s with
      | some g =>
        have hin2 : jsIn s MIME_TO_FORMAT = true := by
          unfold jsIn
          rw [h2]
          rfl
        simp [resolveFormat, hin, hin2, jsAccess, h1, h2]
      | none =>
        cases hpr2 : OBJECT_PROTOTYPE_KEYS.contains s with
        | true =>
          have hin2 : jsIn s MIME_TO_FORMAT = true := by
            unfold jsIn
            rw [h2, hpr2]
            rfl
          simp [resolveFormat, hin, hin2, jsAccess, h1, h2]
        | false =>
          have hin2 : jsIn s MIME_TO_FORMAT = false := by
            unfold jsIn
            rw [h2, hpr2]
            rfl
          simp [resolveFormat, hin, hin2, h1, h2]

end Screenitshot
